import Mathlib

/-!
Verification of the IgabayCare scoring and decision engine.

This file gives a shallow embedding, in Lean 4, of the decision logic of the
repository: the risk-level thresholds and synthetic labelling of
ml_models/clinic_risk_model.py (prepare_labels), the risk-score, risk-flag and
account-status computations of predict_risk, _generate_risk_flags and
_recommend_account_status, the alternative decision path of
ml_models/simple_api.py (assess_risk), the batch endpoint of
ml_models/api_integration.py (batch_assess_risk), the model-selection loop of
train_model, and the two behaviour classifiers
(src/ml/behavior_inference.py predict_human and
src/ml/mock_inference.py predict_human_mock).

Numeric values are modelled as rationals; the learned classifier itself is
opaque and its output (predicted label and class-probability vector) is an
explicit input of the embedded inference functions, as is the success or
failure of the fallible parts of each pipeline.
-/

/-- The three risk levels of the engine (strings LOW, MEDIUM, HIGH in the source). -/
inductive RiskLevel
  | LOW
  | MEDIUM
  | HIGH
deriving DecidableEq, Repr

/-- The three account statuses of the engine. -/
inductive AccountStatus
  | ACTIVE_LIMITED
  | VERIFICATION_REQUIRED
  | RESTRICTED
deriving DecidableEq, Repr

/-- Score-to-level conversion of prepare_labels
(clinic_risk_model.py lines 241-248): a score at most 0.3 is LOW, a score at
most 0.7 is MEDIUM, anything above is HIGH. -/
def score_to_risk_level (score : ℚ) : RiskLevel :=
  if score ≤ 3/10 then RiskLevel.LOW
  else if score ≤ 7/10 then RiskLevel.MEDIUM
  else RiskLevel.HIGH

/-- A raw clinic record as seen by predict_risk: the row df.iloc[0] built from
the caller-supplied mapping. Each field is the truthiness of the value stored
under the identically named key, or none when the key is absent. Only the keys
inspected by _generate_risk_flags and _recommend_account_status, plus the raw
columns needed by the engineered-feature counterexamples, are modelled. -/
structure Profile where
  clinic_name : Option String := none
  website : Option String := none
  license_number : Option String := none
  number_of_doctors : Option ℚ := none
  has_website : Option Bool := none
  has_license : Option Bool := none
  license_format_valid : Option Bool := none
  has_accreditation : Option Bool := none
  is_new_business : Option Bool := none
  is_solo_practice : Option Bool := none
deriving DecidableEq

/-- Risk flags of _generate_risk_flags (clinic_risk_model.py lines 447-464):
each flag is appended when the lookup clinic_data.get(key, default) on the raw
record is falsy (has_website, has_license, license_format_valid,
has_accreditation, default True) or truthy (is_new_business, is_solo_practice,
default False). -/
def generate_risk_flags (p : Profile) : List String :=
  (if p.has_website.getD true = false then ["NO_WEBSITE"] else []) ++
  (if p.has_license.getD true = false then ["NO_LICENSE"] else []) ++
  (if p.license_format_valid.getD true = false then ["INVALID_LICENSE_FORMAT"] else []) ++
  (if p.has_accreditation.getD true = false then ["NO_ACCREDITATION"] else []) ++
  (if p.is_new_business.getD false = true then ["NEW_BUSINESS"] else []) ++
  (if p.is_solo_practice.getD false = true then ["SOLO_PRACTICE"] else [])

/-- Account-status recommendation of _recommend_account_status
(clinic_risk_model.py lines 466-473): HIGH is RESTRICTED; LOW with a truthy
clinic_data.get(has_license, False) is ACTIVE_LIMITED; everything else is
VERIFICATION_REQUIRED. -/
def recommend_account_status (level : RiskLevel) (p : Profile) : AccountStatus :=
  if level = RiskLevel.HIGH then AccountStatus.RESTRICTED
  else if level = RiskLevel.LOW ∧ p.has_license.getD false = true then
    AccountStatus.ACTIVE_LIMITED
  else AccountStatus.VERIFICATION_REQUIRED

/-- Modelled from the spec: the decision table of the claim — (HIGH, _) maps to
RESTRICTED, (LOW, has_license = true) maps to ACTIVE_LIMITED, every other
combination maps to VERIFICATION_REQUIRED. Stated for comparison with the two
account-status computations of the source. -/
def claimed_account_status (level : RiskLevel) (hasLicense : Bool) : AccountStatus :=
  match level, hasLicense with
  | RiskLevel.HIGH, _ => AccountStatus.RESTRICTED
  | RiskLevel.LOW, true => AccountStatus.ACTIVE_LIMITED
  | _, _ => AccountStatus.VERIFICATION_REQUIRED

/-- Account-status rule of simple_api.py assess_risk (lines 103-109): HIGH is
RESTRICTED, LOW is ACTIVE_LIMITED with no license condition, everything else is
VERIFICATION_REQUIRED. -/
def simple_api_account_status (level : RiskLevel) : AccountStatus :=
  if level = RiskLevel.HIGH then AccountStatus.RESTRICTED
  else if level = RiskLevel.LOW then AccountStatus.ACTIVE_LIMITED
  else AccountStatus.VERIFICATION_REQUIRED

/-- Output of the opaque learned classifier inside predict_risk: the predicted
label (model.predict(X_encoded)[0]) and the class-probability vector
(model.predict_proba(X_encoded)[0]). The probability vector is indexed by the
ordered classes LOW, MEDIUM, HIGH when all three are present. -/
structure ModelOutput where
  label : RiskLevel
  proba : List ℚ
deriving DecidableEq

/-- The maximum of a probability vector, as np.max over a vector of
non-negative entries (used for the confidence field). -/
def proba_max (proba : List ℚ) : ℚ :=
  proba.foldl max 0

/-- Risk-score computation of predict_risk (clinic_risk_model.py lines
420-423): high_prob is proba[2] when more than two entries exist else 0,
medium_prob is proba[1] when more than one entry exists else 0, and the score
is high_prob * 0.7 + medium_prob * 0.3. -/
def risk_score_of (proba : List ℚ) : ℚ :=
  let high_prob := if 2 < proba.length then proba.getD 2 0 else 0
  let medium_prob := if 1 < proba.length then proba.getD 1 0 else 0
  high_prob * (7/10) + medium_prob * (3/10)

/-- A risk assessment as assembled by predict_risk (clinic_risk_model.py lines
431-439). The prediction timestamp is an I/O effect and is not modelled. -/
structure RiskAssessment where
  risk_score : ℚ
  risk_level : RiskLevel
  account_status : AccountStatus
  risk_flags : List String
  confidence : ℚ
  model_version : String
deriving DecidableEq

/-- predict_risk of clinic_risk_model.py (lines 389-445). The fallible part of
the body — feature engineering, column alignment, encoding and the two model
calls — is summarised by an Except argument: error e stands for an exception
raised inside the try block, ok out for a successful pair of model calls. On
an exception the function prints and returns None (line 443-445), so the
embedding returns none; otherwise it assembles the assessment from the model
output and the raw record df.iloc[0]. -/
def predict_risk (modelEval : Except String ModelOutput) (p : Profile) :
    Option RiskAssessment :=
  match modelEval with
  | Except.error _ => none
  | Except.ok out =>
    some
      { risk_score := risk_score_of out.proba
        risk_level := out.label
        account_status := recommend_account_status out.label p
        risk_flags := generate_risk_flags p
        confidence := proba_max out.proba
        model_version := "2.0" }

/-- Truthiness of an optional string value, as Python evaluates
clinic_data.get(key): an absent key (None) and the empty string are falsy. -/
def truthy_str (o : Option String) : Bool :=
  match o with
  | none => false
  | some s => s ≠ ""

/-- A raw clinic record as read by simple_api.py assess_risk: the optional raw
fields the endpoint inspects. -/
structure SimpleClinicData where
  website : Option String := none
  phone : Option String := none
  license_number : Option String := none
  accreditation : Option String := none
  year_established : Option Int := none
deriving DecidableEq

/-- Risk-score computation of simple_api.py assess_risk (lines 92-101): a base
per predicted level plus (confidence - 0.5) * 0.4, clamped to the unit
interval. -/
def simple_api_risk_score (level : RiskLevel) (confidence : ℚ) : ℚ :=
  let base : ℚ :=
    match level with
    | RiskLevel.HIGH => 4/5 + (confidence - 1/2) * (2/5)
    | RiskLevel.MEDIUM => 2/5 + (confidence - 1/2) * (2/5)
    | RiskLevel.LOW => 1/5 + (confidence - 1/2) * (2/5)
  max 0 (min 1 base)

/-- Risk flags of simple_api.py assess_risk (lines 112-120), computed from the
truthiness of the raw fields and the year established (default 2024). -/
def simple_api_risk_flags (c : SimpleClinicData) : List String :=
  (if truthy_str c.website = false then ["NO_WEBSITE"] else []) ++
  (if truthy_str c.license_number = false then ["NO_LICENSE"] else []) ++
  (if truthy_str c.accreditation = false then ["NO_ACCREDITATION"] else []) ++
  (if c.year_established.getD 2024 > 2020 then ["NEW_BUSINESS"] else [])

/-- An assessment produced by simple_api.py assess_risk (lines 122-132),
restricted to the fields the claims are about. -/
structure SimpleApiResult where
  risk_score : ℚ
  risk_level : RiskLevel
  account_status : AccountStatus
  risk_flags : List String
  confidence : ℚ
deriving DecidableEq

/-- The assessment simple_api.py assess_risk assembles from the decoded
predicted level, the class-probability vector of the opaque model and the raw
clinic record (lines 86-132). -/
def simple_api_assess (level : RiskLevel) (proba : List ℚ) (c : SimpleClinicData) :
    SimpleApiResult :=
  let confidence := proba_max proba
  { risk_score := simple_api_risk_score level confidence
    risk_level := level
    account_status := simple_api_account_status level
    risk_flags := simple_api_risk_flags c
    confidence := confidence }

/-- A behaviour telemetry snapshot as consumed by the two behaviour
classifiers: each field is the value stored under the identically named key,
or none when the key is absent (snapshot.get(key, 0) then defaults to 0). -/
structure BehaviorSnapshot where
  timeOnPageSeconds : Option ℚ := none
  mouseMoveRate : Option ℚ := none
  keyPressRate : Option ℚ := none
  idleRatio : Option ℚ := none
  interactionScore : Option ℚ := none
deriving DecidableEq

/-- A behaviour verdict as emitted by predict_human and predict_human_mock:
isHuman, confidence, model version, reason, and the two class probabilities. -/
structure BehaviorVerdict where
  isHuman : Bool
  confidence : ℚ
  modelVersion : String
  reason : String
  probHuman : ℚ
  probBot : ℚ
deriving DecidableEq

/-- Adjusted score of predict_human_mock (mock_inference.py lines 22-58): the
variable named confidence in the source starts at 0.5, gains 0.3 for
time_on_page < 5, 0.2 for mouse_rate < 0.1 and key_rate < 0.1, 0.2 for
idle_ratio > 0.7 and 0.1 for interaction_score < 0.1, then loses 0.2 for
30 < time_on_page < 300, 0.2 for mouse_rate > 0.5 and key_rate > 0.1, and 0.1
for idle_ratio < 0.5. All five inputs default to 0 when absent. -/
def mock_adjusted_score (s : BehaviorSnapshot) : ℚ :=
  let time_on_page := s.timeOnPageSeconds.getD 0
  let mouse_rate := s.mouseMoveRate.getD 0
  let key_rate := s.keyPressRate.getD 0
  let idle_ratio := s.idleRatio.getD 0
  let interaction_score := s.interactionScore.getD 0
  let c : ℚ := 1/2
  let c := if time_on_page < 5 then c + 3/10 else c
  let c := if mouse_rate < 1/10 ∧ key_rate < 1/10 then c + 1/5 else c
  let c := if idle_ratio > 7/10 then c + 1/5 else c
  let c := if interaction_score < 1/10 then c + 1/10 else c
  let c := if time_on_page > 30 ∧ time_on_page < 300 then c - 1/5 else c
  let c := if mouse_rate > 1/2 ∧ key_rate > 1/10 then c - 1/5 else c
  let c := if idle_ratio < 1/2 then c - 1/10 else c
  c

/-- Bot indicator phrases of predict_human_mock, in the order the source
appends them (mock_inference.py lines 22-43). -/
def mock_bot_indicators (s : BehaviorSnapshot) : List String :=
  (if s.timeOnPageSeconds.getD 0 < 5 then ["very short time on page"] else []) ++
  (if s.mouseMoveRate.getD 0 < 1/10 ∧ s.keyPressRate.getD 0 < 1/10 then
    ["minimal interaction"] else []) ++
  (if s.idleRatio.getD 0 > 7/10 then ["high idle ratio"] else []) ++
  (if s.interactionScore.getD 0 < 1/10 then ["low interaction score"] else [])

/-- Human indicator phrases of predict_human_mock (mock_inference.py lines
45-58). -/
def mock_human_indicators (s : BehaviorSnapshot) : List String :=
  (if s.timeOnPageSeconds.getD 0 > 30 ∧ s.timeOnPageSeconds.getD 0 < 300 then
    ["reasonable time on page"] else []) ++
  (if s.mouseMoveRate.getD 0 > 1/2 ∧ s.keyPressRate.getD 0 > 1/10 then
    ["active interaction"] else []) ++
  (if s.idleRatio.getD 0 < 1/2 then ["low idle ratio"] else [])

/-- predict_human_mock of mock_inference.py (lines 11-81): the heuristic
behaviour classifier. is_human is adjusted score < 0.6; the reported
confidence is |adjusted score - 0.5| * 2 clamped to the unit interval
(min(1.0, max(0.0, _)) at line 72); the probability of the predicted class is
the unclamped scaled confidence (1 - it for human) while the other class is
hard-coded to 0.1. -/
def predict_human_mock (s : BehaviorSnapshot) : BehaviorVerdict :=
  let adjusted := mock_adjusted_score s
  let is_human : Bool := adjusted < 3/5
  let final_confidence := |adjusted - 1/2| * 2
  { isHuman := is_human
    confidence := min 1 (max 0 final_confidence)
    modelVersion := "mock-1.0.0"
    reason :=
      if is_human then
        "Human indicators: " ++
          (if mock_human_indicators s = [] then "normal behavior patterns"
           else String.intercalate (", ") (mock_human_indicators s))
      else
        "Bot indicators: " ++
          (if mock_bot_indicators s = [] then "suspicious behavior patterns"
           else String.intercalate (", ") (mock_bot_indicators s))
    probHuman := if is_human then 1 - final_confidence else 1/10
    probBot := if is_human then 1/10 else final_confidence }

/-- Result of the fallible model-backed part of predict_human
(behavior_inference.py lines 50-64): the loaded bundle version, the predicted
class (model.predict(features_scaled)[0]) and the class-probability vector,
indexed bot then human. -/
structure LearnedEval where
  prediction : Int
  probabilities : List ℚ
  version : String
deriving DecidableEq

/-- Advisory bot indicator phrases of predict_human (behavior_inference.py
lines 76-91), evaluated on the raw snapshot independently of the model
decision; unlike the mock classifier there is no low-interaction-score rule. -/
def learned_bot_reasons (s : BehaviorSnapshot) : List String :=
  (if s.timeOnPageSeconds.getD 0 < 5 then ["very short time on page"] else []) ++
  (if s.mouseMoveRate.getD 0 < 1/10 ∧ s.keyPressRate.getD 0 < 1/10 then
    ["minimal interaction"] else []) ++
  (if s.idleRatio.getD 0 > 7/10 then ["high idle ratio"] else [])

/-- predict_human of behavior_inference.py (lines 48-117). The fallible part
of the try block — bundle field access, feature scaling and the two model
calls — is summarised by the Except argument. On an exception the function
returns the safe default verdict of lines 106-117: isHuman false, confidence
0, probabilities human 0 and bot 1. -/
def predict_human (modelEval : Except String LearnedEval) (s : BehaviorSnapshot) :
    BehaviorVerdict :=
  match modelEval with
  | Except.error e =>
    { isHuman := false
      confidence := 0
      modelVersion := "error"
      reason := "Prediction error: " ++ e
      probHuman := 0
      probBot := 1 }
  | Except.ok ev =>
    let human_prob := if 1 < ev.probabilities.length then ev.probabilities.getD 1 0 else 0
    let bot_prob := if 0 < ev.probabilities.length then ev.probabilities.getD 0 0 else 0
    let is_human : Bool := ev.prediction = 1
    { isHuman := is_human
      confidence := max human_prob bot_prob
      modelVersion := ev.version
      reason :=
        if is_human then "Behavioral patterns match human interaction"
        else if learned_bot_reasons s = [] then
          "Behavioral patterns match human interaction"
        else "Bot indicators: " ++ String.intercalate (", ") (learned_bot_reasons s)
      probHuman := human_prob
      probBot := bot_prob }

/-- One item of a batch request to api_integration.py batch_assess_risk: only
the clinic_name key matters to the error entries; the rest of the record is
summarised by the per-item prediction outcome (the outcome function below). -/
structure ClinicItem where
  clinic_name : Option String := none
deriving DecidableEq

/-- Outcome of model.predict_risk on one batch item (api_integration.py lines
141-157): either a produced assessment, or a falsy result (predict_risk
returned None), or an exception escaping the call. -/
inductive ItemOutcome
  | ok (r : RiskAssessment)
  | failed
  | exn (msg : String)
deriving DecidableEq

/-- One successful entry of the batch response: the assessment plus the
batch_index the loop attaches (api_integration.py line 144). -/
structure BatchResultEntry where
  assessment : RiskAssessment
  batch_index : Nat
deriving DecidableEq

/-- One error entry of the batch response (api_integration.py lines 147-157):
the item index, the error message, and clinic_data.get(clinic_name, Unknown). -/
structure BatchErrorEntry where
  batch_index : Nat
  error : String
  clinic_name : String
deriving DecidableEq

/-- The summary block of the batch response (api_integration.py lines
166-170). -/
structure BatchSummary where
  total_processed : Nat
  successful : Nat
  failed : Nat
deriving DecidableEq

/-- The data block of a successful batch response (api_integration.py lines
161-172). -/
structure BatchData where
  results : List BatchResultEntry
  errors : List BatchErrorEntry
  summary : BatchSummary
deriving DecidableEq

/-- The two rejection responses of batch_assess_risk before any item is
processed: an empty clinics array (line 125) and more than 100 items (line
131). The model-not-loaded guard is upstream of both and not modelled. -/
inductive BatchApiError
  | noClinics
  | tooManyClinics
deriving DecidableEq

/-- The item loop of batch_assess_risk (api_integration.py lines 137-157),
with the running index made explicit: each item is evaluated independently by
the outcome function f; an ok outcome appends one result entry carrying the
item index, a falsy or raised outcome appends one error entry carrying the
item index, the message and the clinic name. -/
def process_clinics (f : ClinicItem → ItemOutcome) :
    Nat → List ClinicItem → List BatchResultEntry × List BatchErrorEntry
  | _, [] => ([], [])
  | i, c :: rest =>
    let tail := process_clinics f (i + 1) rest
    match f c with
    | ItemOutcome.ok r => (⟨r, i⟩ :: tail.1, tail.2)
    | ItemOutcome.failed =>
      (tail.1, ⟨i, "Prediction failed", c.clinic_name.getD ("Unknown")⟩ :: tail.2)
    | ItemOutcome.exn m =>
      (tail.1, ⟨i, m, c.clinic_name.getD ("Unknown")⟩ :: tail.2)

/-- batch_assess_risk of api_integration.py (lines 112-172): reject an empty
clinics array, reject more than 100 items, otherwise process every item
independently and report the results, the errors and the summary counts
(total_processed = number of submitted items, successful = number of result
entries, failed = number of error entries). -/
def batch_assess_risk (f : ClinicItem → ItemOutcome) (clinics : List ClinicItem) :
    Except BatchApiError BatchData :=
  if clinics.isEmpty then Except.error BatchApiError.noClinics
  else if 100 < clinics.length then Except.error BatchApiError.tooManyClinics
  else
    let processed := process_clinics f 0 clinics
    Except.ok
      { results := processed.1
        errors := processed.2
        summary :=
          { total_processed := clinics.length
            successful := processed.1.length
            failed := processed.2.length } }

/-- The three candidate algorithms of train_model, in the order of the models
dict (clinic_risk_model.py lines 312-316). -/
inductive Candidate
  | RandomForest
  | GradientBoosting
  | LogisticRegression
deriving DecidableEq, Repr

/-- The iteration order of the candidate loop of train_model (the insertion
order of the models dict). -/
def candidate_order : List Candidate :=
  [Candidate.RandomForest, Candidate.GradientBoosting, Candidate.LogisticRegression]

/-- The selection loop of train_model (clinic_risk_model.py lines 318-340):
starting from best_model None and best_score 0, each candidate in declared
order replaces the incumbent exactly when its mean 5-fold weighted-F1
cross-validation score is strictly greater than the incumbent score. The mean
CV score of each candidate is an input (the cv function) since
cross-validation is performed by the external library. -/
def select_best_model (cv : Candidate → ℚ) : Option Candidate × ℚ :=
  candidate_order.foldl
    (fun best name => if cv name > best.2 then (some name, cv name) else best)
    (none, 0)

/-- Modelled from the spec: the candidate the spec says the selection must
return — the one with the highest mean CV score, ties broken in favour of the
first-declared candidate. Stated for comparison with select_best_model. -/
def spec_best_candidate (cv : Candidate → ℚ) : Candidate :=
  if cv Candidate.GradientBoosting > cv Candidate.RandomForest then
    (if cv Candidate.LogisticRegression > cv Candidate.GradientBoosting then
      Candidate.LogisticRegression
     else Candidate.GradientBoosting)
  else
    (if cv Candidate.LogisticRegression > cv Candidate.RandomForest then
      Candidate.LogisticRegression
     else Candidate.RandomForest)

/-- The raw columns a record handed to engineer_features may carry: true means
the column is present in the input DataFrame. A dict passed to predict_risk
becomes a one-row DataFrame whose columns are exactly the keys of the dict. -/
structure RawColumns where
  submission_timestamp : Bool := false
  clinic_name : Bool := false
  website : Bool := false
  phone : Bool := false
  email : Bool := false
  license_number : Bool := false
  accreditation : Bool := false
  tax_id : Bool := false
  address : Bool := false
  city : Bool := false
  state : Bool := false
  zip_code : Bool := false
  latitude : Bool := false
  longitude : Bool := false
  year_established : Bool := false
  number_of_doctors : Bool := false
  number_of_staff : Bool := false
  specialties : Bool := false
  custom_specialties : Bool := false
  services : Bool := false
  custom_services : Bool := false
  login_frequency : Bool := false
  profile_completion_time : Bool := false
  data_modification_count : Bool := false
  session_duration_avg : Bool := false
  description : Bool := false
deriving DecidableEq

/-- The record whose raw columns are all present. -/
def allRawColumns : RawColumns :=
  { submission_timestamp := true, clinic_name := true, website := true,
    phone := true, email := true, license_number := true, accreditation := true,
    tax_id := true, address := true, city := true, state := true,
    zip_code := true, latitude := true, longitude := true,
    year_established := true, number_of_doctors := true,
    number_of_staff := true, specialties := true, custom_specialties := true,
    services := true, custom_services := true, login_frequency := true,
    profile_completion_time := true, data_modification_count := true,
    session_duration_avg := true, description := true }

/-- The record with no raw column present (the one-row DataFrame of an empty
dict). -/
def noRawColumns : RawColumns := {}

/-- The columns of the DataFrame returned by engineer_features
(clinic_risk_model.py lines 58-178), in the order the source inserts them.
Every feature family is guarded by a column-presence test on the input
(if col in df.columns), so a family whose raw column is absent contributes no
keys at all; the conjunctive guards of address_completeness, has_coordinates,
doctor_to_staff_ratio, total_specialties and has_custom_specialties are
reproduced as in the source. -/
def engineer_features_keys (c : RawColumns) : List String :=
  (if c.submission_timestamp then
    ["submission_hour", "submission_day_of_week", "is_weekend_submission",
     "is_business_hours", "is_late_night"] else []) ++
  (if c.clinic_name then ["clinic_name_length", "has_numbers_in_name"] else []) ++
  (if c.website then ["has_website", "website_length"] else []) ++
  (if c.phone then ["has_phone", "phone_length", "phone_is_valid"] else []) ++
  (if c.email then ["email_length", "email_domain_type"] else []) ++
  (if c.license_number then
    ["has_license", "license_length", "license_format_valid"] else []) ++
  (if c.accreditation then ["has_accreditation", "accreditation_length"] else []) ++
  (if c.tax_id then ["has_tax_id", "tax_id_format_valid"] else []) ++
  (if c.address then ["has_address", "address_length"] else []) ++
  (if c.city then ["has_city", "city_length"] else []) ++
  (if c.state then ["has_state", "state_length"] else []) ++
  (if c.zip_code then ["has_zip_code", "zip_code_length"] else []) ++
  (if c.address && c.city && c.state && c.zip_code then
    ["address_completeness"] else []) ++
  (if c.latitude && c.longitude then ["has_coordinates"] else []) ++
  (if c.year_established then
    ["years_in_business", "is_new_business", "is_established"] else []) ++
  (if c.number_of_doctors then
    ["number_of_doctors", "is_solo_practice", "is_large_clinic"] else []) ++
  (if c.number_of_staff then
    "number_of_staff" ::
      (if c.number_of_doctors then ["doctor_to_staff_ratio"] else [])
   else []) ++
  (if c.specialties then ["specialties_count"] else []) ++
  (if c.custom_specialties then ["custom_specialties_count"] else []) ++
  (if c.services then ["services_count"] else []) ++
  (if c.custom_services then ["custom_services_count"] else []) ++
  (if c.specialties && c.custom_specialties then
    ["total_specialties", "has_custom_specialties"] else []) ++
  (if c.login_frequency then ["login_frequency", "is_active_user"] else []) ++
  (if c.profile_completion_time then
    ["profile_completion_time", "completed_profile_quickly"] else []) ++
  (if c.data_modification_count then
    ["data_modification_count", "frequent_modifications"] else []) ++
  (if c.session_duration_avg then ["session_duration_avg", "long_sessions"] else []) ++
  (if c.description then
    ["description_length", "has_description", "description_quality"] else [])

/-- The full declared feature superset: the 56 feature columns
engineer_features can produce, in source order. -/
def declared_feature_columns : List String :=
  ["submission_hour", "submission_day_of_week", "is_weekend_submission",
   "is_business_hours", "is_late_night",
   "clinic_name_length", "has_numbers_in_name",
   "has_website", "website_length",
   "has_phone", "phone_length", "phone_is_valid",
   "email_length", "email_domain_type",
   "has_license", "license_length", "license_format_valid",
   "has_accreditation", "accreditation_length",
   "has_tax_id", "tax_id_format_valid",
   "has_address", "address_length",
   "has_city", "city_length",
   "has_state", "state_length",
   "has_zip_code", "zip_code_length",
   "address_completeness",
   "has_coordinates",
   "years_in_business", "is_new_business", "is_established",
   "number_of_doctors", "is_solo_practice", "is_large_clinic",
   "number_of_staff", "doctor_to_staff_ratio",
   "specialties_count", "custom_specialties_count", "services_count",
   "custom_services_count",
   "total_specialties", "has_custom_specialties",
   "login_frequency", "is_active_user",
   "profile_completion_time", "completed_profile_quickly",
   "data_modification_count", "frequent_modifications",
   "session_duration_avg", "long_sessions",
   "description_length", "has_description", "description_quality"]

/-- The column-alignment step of predict_risk (clinic_risk_model.py lines
405-411): every expected column absent from the engineered frame is added with
value 0, then exactly the expected columns are selected in their stored order.
An engineered frame is modelled as an association list from column name to
value. -/
def align_features (feature_columns : List String) (X : List (String × ℚ)) :
    List (String × ℚ) :=
  feature_columns.map (fun k => (k, ((X.lookup k).getD 0)))

/-- The engineered value of the is_solo_practice feature on a raw record
(clinic_risk_model.py line 135): present exactly when the number_of_doctors
column is, and true exactly when that column equals 1. -/
def engineered_is_solo_practice (p : Profile) : Option Bool :=
  p.number_of_doctors.map (fun n => decide (n = 1))


/-- The result entries the batch loop produces for one item at one index: one
entry carrying the assessment and the index when the prediction succeeds,
nothing otherwise (api_integration.py lines 142-145). -/
def expected_results_at (f : ClinicItem → ItemOutcome) (c : ClinicItem) (i : Nat) :
    List BatchResultEntry :=
  match f c with
  | ItemOutcome.ok r => [⟨r, i⟩]
  | _ => []

/-- The error entries the batch loop produces for one item at one index: one
entry carrying the index, the message and the clinic name when the prediction
fails, nothing otherwise (api_integration.py lines 146-157). -/
def expected_errors_at (f : ClinicItem → ItemOutcome) (c : ClinicItem) (i : Nat) :
    List BatchErrorEntry :=
  match f c with
  | ItemOutcome.ok _ => []
  | ItemOutcome.failed => [⟨i, "Prediction failed", c.clinic_name.getD ("Unknown")⟩]
  | ItemOutcome.exn m => [⟨i, m, c.clinic_name.getD ("Unknown")⟩]

/-- A concrete assessment used by the batch witness scenario. -/
def demo_assessment : RiskAssessment :=
  { risk_score := 1/5
    risk_level := RiskLevel.LOW
    account_status := AccountStatus.VERIFICATION_REQUIRED
    risk_flags := []
    confidence := 3/5
    model_version := "2.0" }

/-- The witness outcome function: the item named bad fails, all others
succeed. -/
def demo_outcome (c : ClinicItem) : ItemOutcome :=
  if c.clinic_name = some ("bad") then ItemOutcome.failed
  else ItemOutcome.ok demo_assessment

/-- The witness batch: three items of which the second is the failing one. -/
def demo_clinics : List ClinicItem :=
  [⟨some ("a")⟩, ⟨some ("bad")⟩, ⟨some ("c")⟩]

/-- The witness CV-score assignment for the model-selection theorem:
RandomForest 0.5, GradientBoosting and LogisticRegression tied at 0.75. -/
def demo_cv (c : Candidate) : ℚ :=
  match c with
  | Candidate.RandomForest => 1/2
  | Candidate.GradientBoosting => 3/4
  | Candidate.LogisticRegression => 3/4

/-! ## Helper lemmas -/

/-- Membership in a guarded block: an element is in (if P then l else []) iff
the guard holds and the element is in the block. -/
theorem mem_if_nil {a : String} {P : Prop} [Decidable P] {l : List String} :
    a ∈ (if P then l else []) ↔ P ∧ a ∈ l := by
  split <;> simp_all

/-- Moving a guarded increment out of an if-branch. -/
theorem ite_add_shift (P : Prop) [Decidable P] (c x : ℚ) :
    (if P then c + x else c) = c + (if P then x else 0) := by
  split <;> simp

/-- Moving a guarded decrement out of an if-branch. -/
theorem ite_sub_shift (P : Prop) [Decidable P] (c x : ℚ) :
    (if P then c - x else c) = c - (if P then x else 0) := by
  split <;> simp

/-- A guarded block is a sublist of its unguarded body. -/
theorem if_nil_sublist {P : Prop} [Decidable P] (l : List String) :
    (if P then l else []).Sublist l := by
  split
  · exact List.Sublist.refl l
  · exact List.nil_sublist l

/-! ## C1: the account-status decision table -/

/-- C1, counterexample. The claim says every produced risk assessment maps
(LOW, has_license = false) to VERIFICATION_REQUIRED, but the assessment
produced by simple_api.py assess_risk for a licence-less record predicted LOW
carries ACTIVE_LIMITED: its account-status rule ignores the licence. -/
theorem c1_counterexample :
    truthy_str ({} : SimpleClinicData).license_number = false ∧
    "NO_LICENSE" ∈ (simple_api_assess RiskLevel.LOW [1] {}).risk_flags ∧
    (simple_api_assess RiskLevel.LOW [1] {}).account_status =
      AccountStatus.ACTIVE_LIMITED ∧
    claimed_account_status RiskLevel.LOW false =
      AccountStatus.VERIFICATION_REQUIRED ∧
    (simple_api_assess RiskLevel.LOW [1] {}).account_status ≠
      claimed_account_status RiskLevel.LOW false := by
  refine ⟨rfl, ?_, rfl, rfl, by decide⟩
  simp [simple_api_assess, simple_api_risk_flags, truthy_str]

/-- C1, amended. In clinic_risk_model.py the recommendation is exactly the
claimed pure function of (risk_level, has_license), where has_license is the
truthiness of clinic_data.get(has_license, False); in simple_api.py the
account status depends on the risk level alone and coincides with the claimed
table evaluated with has_license forced to true, so LOW yields ACTIVE_LIMITED
even without a licence. -/
theorem c1_amended :
    (∀ (level : RiskLevel) (p : Profile),
      recommend_account_status level p =
        claimed_account_status level (p.has_license.getD false)) ∧
    (∀ level : RiskLevel,
      simple_api_account_status level = claimed_account_status level true) := by
  constructor
  · intro level p
    cases level <;> cases h : p.has_license.getD false <;>
      simp [recommend_account_status, claimed_account_status, h]
  · intro level
    cases level <;> rfl

/-! ## C2: the score-to-level threshold law -/

/-- C2, counterexample. A legitimate model output — probabilities over the
ordered classes LOW, MEDIUM, HIGH summing to one, predicted label the class of
maximal probability — produces an assessment whose reported risk_level (LOW)
differs from the level the fixed thresholds assign to its own risk_score
(0.33, which is MEDIUM): predict_risk takes the level from the classifier and
the score from the probability vector without reconciling the two. -/
theorem c2_counterexample :
    ([34/100, 33/100, 33/100] : List ℚ).sum = 1 ∧
    proba_max [34/100, 33/100, 33/100] = 34/100 ∧
    (predict_risk (Except.ok ⟨RiskLevel.LOW, [34/100, 33/100, 33/100]⟩) {}).map
        (fun r => (r.risk_level, score_to_risk_level r.risk_score)) =
      some (RiskLevel.LOW, RiskLevel.MEDIUM) ∧
    RiskLevel.LOW ≠ RiskLevel.MEDIUM := by
  refine ⟨by norm_num, by norm_num [proba_max], ?_, by decide⟩
  simp only [predict_risk, Option.map_some]
  norm_num [risk_score_of, score_to_risk_level]

/-- C2, amended. The fixed thresholds hold wherever a score is converted to a
level — the conversion of prepare_labels maps a score to LOW iff it is at most
0.3, to MEDIUM iff it lies in (0.3, 0.7], and to HIGH iff it exceeds 0.7 — but
the risk_level of an assessment produced by predict_risk is the classifier
label itself, not a threshold of its risk_score, which is computed separately
from the probability vector. -/
theorem c2_amended :
    (∀ s : ℚ, score_to_risk_level s = RiskLevel.LOW ↔ s ≤ 3/10) ∧
    (∀ s : ℚ, score_to_risk_level s = RiskLevel.MEDIUM ↔ (3/10 < s ∧ s ≤ 7/10)) ∧
    (∀ s : ℚ, score_to_risk_level s = RiskLevel.HIGH ↔ 7/10 < s) ∧
    (∀ (out : ModelOutput) (p : Profile),
      (predict_risk (Except.ok out) p).map (fun r => r.risk_level) = some out.label ∧
      (predict_risk (Except.ok out) p).map (fun r => r.risk_score) =
        some (risk_score_of out.proba)) := by
  refine ⟨?_, ?_, ?_, fun out p => ⟨rfl, rfl⟩⟩ <;>
    · intro s
      unfold score_to_risk_level
      split_ifs <;> simp_all <;> linarith

/-- C2, witness for the amended theorem at concrete scores. -/
theorem c2_amended_witness :
    score_to_risk_level (1/5) = RiskLevel.LOW ∧
    score_to_risk_level (1/2) = RiskLevel.MEDIUM ∧
    score_to_risk_level (9/10) = RiskLevel.HIGH :=
  ⟨(c2_amended.1 (1/5)).mpr (by norm_num),
   (c2_amended.2.1 (1/2)).mpr (by norm_num),
   (c2_amended.2.2.1 (9/10)).mpr (by norm_num)⟩

/-! ## C3: the weighted risk score -/

/-- C3, counterexample. With only two classes the returned score is 0.3 times
the second probability, not the predicted class probability: for the vector
[0.4, 0.6], whose predicted (maximal-probability) class carries 0.6, the code
returns 0.18. -/
theorem c3_counterexample :
    risk_score_of [2/5, 3/5] = 9/50 ∧
    proba_max [2/5, 3/5] = 3/5 ∧
    risk_score_of [2/5, 3/5] ≠ proba_max [2/5, 3/5] := by
  norm_num [risk_score_of, proba_max]

/-- C3, amended. With the three ordered classes LOW, MEDIUM, HIGH present the
returned risk score is 0.7 times the HIGH probability plus 0.3 times the
MEDIUM probability, as claimed; with fewer classes it degrades to 0.3 times
the second probability (two classes) or to 0 (one or zero classes), not to the
predicted class probability. -/
theorem c3_amended :
    (∀ pLow pMed pHigh : ℚ,
      risk_score_of [pLow, pMed, pHigh] = (7/10) * pHigh + (3/10) * pMed) ∧
    (∀ p0 p1 : ℚ, risk_score_of [p0, p1] = (3/10) * p1) ∧
    (∀ p0 : ℚ, risk_score_of [p0] = 0) ∧
    risk_score_of [] = 0 := by
  refine ⟨fun pLow pMed pHigh => ?_, fun p0 p1 => ?_, fun p0 => ?_, ?_⟩
  · simp [risk_score_of]; ring
  · simp [risk_score_of]; ring
  · simp [risk_score_of]
  · simp [risk_score_of]

/-! ## C4: the engineered feature key set -/

/-- C4, counterexample. The key set of engineer_features is not fixed: for a
record with no raw columns it is empty — has_website, like every other
declared feature key, is simply missing rather than present with value 0 —
while for a record with every raw column it is the full 56-key superset. -/
theorem c4_counterexample :
    engineer_features_keys noRawColumns = [] ∧
    "has_website" ∈ engineer_features_keys allRawColumns ∧
    "has_website" ∉ engineer_features_keys noRawColumns ∧
    engineer_features_keys noRawColumns ≠ engineer_features_keys allRawColumns := by
  decide

/-- C4, amended. The key set of engineer_features varies with the raw columns
present in the input: it is always a sublist of the declared 56-key superset,
equals the full superset exactly when every raw column is present, and a
family key such as has_website or has_license appears iff its guarding raw
column does. The fixed complete key set of the claim is only established
afterwards by the alignment step of predict_risk, whose output columns are
exactly the stored feature_columns, with value 0 for every key the engineered
frame lacks. -/
theorem c4_amended :
    engineer_features_keys allRawColumns = declared_feature_columns ∧
    (∀ c : RawColumns, (engineer_features_keys c).Sublist declared_feature_columns) ∧
    (∀ c : RawColumns, "has_website" ∈ engineer_features_keys c ↔ c.website = true) ∧
    (∀ c : RawColumns,
      "has_license" ∈ engineer_features_keys c ↔ c.license_number = true) ∧
    (∀ (cols : List String) (X : List (String × ℚ)),
      (align_features cols X).map Prod.fst = cols) ∧
    (∀ (cols : List String) (X : List (String × ℚ)) (k : String),
      k ∈ cols → X.lookup k = none → (k, (0 : ℚ)) ∈ align_features cols X) := by
  refine ⟨by decide, ?_, ?_, ?_, ?_, ?_⟩
  · intro c
    have h : declared_feature_columns = engineer_features_keys allRawColumns := by
      decide
    rw [h]
    unfold engineer_features_keys allRawColumns
    simp only
    repeat' apply List.Sublist.append
    all_goals try exact if_nil_sublist _
    · split
      · split
        · exact List.Sublist.refl _
        · exact List.Sublist.cons₂ _ (List.nil_sublist _)
      · exact List.nil_sublist _
  · intro c
    cases hw : c.website <;>
      simp [engineer_features_keys, mem_if_nil, hw]
  · intro c
    cases hlic : c.license_number <;>
      simp [engineer_features_keys, mem_if_nil, hlic]
  · intro cols X
    unfold align_features
    rw [List.map_map]
    exact List.map_id cols
  · intro cols X k hk hnone
    exact List.mem_map.mpr ⟨k, hk, by simp [hnone]⟩

/-- C4, witness for the amended theorem: the alignment step restores the key
has_website with value 0 on an empty engineered frame. -/
theorem c4_amended_witness :
    ("has_website", (0 : ℚ)) ∈ align_features ["has_website"] [] :=
  c4_amended.2.2.2.2.2 ["has_website"] [] "has_website" (by decide) rfl

/-! ## C5: the risk flags -/

/-- C5, counterexample. For the raw profile that carries only
number_of_doctors = 1, the engineered features say is_solo_practice is true,
yet the assessment predict_risk produces for it has an empty risk_flags list:
_generate_risk_flags inspects the raw record, where the key is_solo_practice
is absent and defaults to False, so SOLO_PRACTICE is not emitted although the
engineered condition of the claim holds. -/
theorem c5_counterexample :
    engineered_is_solo_practice { number_of_doctors := some 1 } = some true ∧
    (predict_risk (Except.ok ⟨RiskLevel.MEDIUM, [1/5, 3/5, 1/5]⟩)
        { number_of_doctors := some 1 }).map (fun r => r.risk_flags) =
      some [] ∧
    "SOLO_PRACTICE" ∉ ([] : List String) := by
  refine ⟨by norm_num [engineered_is_solo_practice], ?_, by decide⟩
  simp [predict_risk, generate_risk_flags]

/-- C5, amended. Each of the six flags appears in the risk_flags of an
assessment exactly when its condition holds on the raw record handed to
predict_risk, under the lookups of _generate_risk_flags: the value stored
under the identically named boolean key, with default true for has_website,
has_license, license_format_valid and has_accreditation and default false for
is_new_business and is_solo_practice. This coincides with the engineered
feature conditions of the claim only when the raw record itself carries those
boolean keys. -/
theorem c5_amended (p : Profile) :
    ("NO_WEBSITE" ∈ generate_risk_flags p ↔ p.has_website.getD true = false) ∧
    ("NO_LICENSE" ∈ generate_risk_flags p ↔ p.has_license.getD true = false) ∧
    ("INVALID_LICENSE_FORMAT" ∈ generate_risk_flags p ↔
      p.license_format_valid.getD true = false) ∧
    ("NO_ACCREDITATION" ∈ generate_risk_flags p ↔
      p.has_accreditation.getD true = false) ∧
    ("NEW_BUSINESS" ∈ generate_risk_flags p ↔ p.is_new_business.getD false = true) ∧
    ("SOLO_PRACTICE" ∈ generate_risk_flags p ↔ p.is_solo_practice.getD false = true) := by
  unfold generate_risk_flags
  refine ⟨?_, ?_, ?_, ?_, ?_, ?_⟩ <;> simp [mem_if_nil]

/-- C5, witness for the amended theorem: a raw record storing the boolean key
has_website = false receives the NO_WEBSITE flag. -/
theorem c5_amended_witness :
    "NO_WEBSITE" ∈ generate_risk_flags { has_website := some false } :=
  (c5_amended { has_website := some false }).1.mpr rfl

/-! ## C6: the heuristic behaviour classifier -/

/-- C6. The adjusted score of predict_human_mock equals 0.5 plus the claimed
weighted indicator terms — +0.3 for time on page below 5 s, +0.2 for mouse and
key rates both below 0.1, +0.2 for idle ratio above 0.7, +0.1 for interaction
score below 0.1, then -0.2 for time on page strictly inside the 30 to 300 s
band, -0.2 for mouse rate above 0.5 with key rate above 0.1, and -0.1 for idle
ratio below 0.5 — and the verdict reports isHuman exactly when the adjusted
score is below 0.6 and confidence |adjusted - 0.5| * 2 clamped to [0, 1].
All five inputs default to 0 when the snapshot lacks the key. -/
theorem c6_mock_heuristic (s : BehaviorSnapshot) :
    mock_adjusted_score s =
      1/2
      + (if s.timeOnPageSeconds.getD 0 < 5 then (3/10 : ℚ) else 0)
      + (if s.mouseMoveRate.getD 0 < 1/10 ∧ s.keyPressRate.getD 0 < 1/10 then
          (1/5 : ℚ) else 0)
      + (if s.idleRatio.getD 0 > 7/10 then (1/5 : ℚ) else 0)
      + (if s.interactionScore.getD 0 < 1/10 then (1/10 : ℚ) else 0)
      - (if s.timeOnPageSeconds.getD 0 > 30 ∧ s.timeOnPageSeconds.getD 0 < 300 then
          (1/5 : ℚ) else 0)
      - (if s.mouseMoveRate.getD 0 > 1/2 ∧ s.keyPressRate.getD 0 > 1/10 then
          (1/5 : ℚ) else 0)
      - (if s.idleRatio.getD 0 < 1/2 then (1/10 : ℚ) else 0) ∧
    ((predict_human_mock s).isHuman = true ↔ mock_adjusted_score s < 3/5) ∧
    (predict_human_mock s).confidence =
      min 1 (max 0 (|mock_adjusted_score s - 1/2| * 2)) := by
  refine ⟨?_, ?_, rfl⟩
  · simp only [mock_adjusted_score, ite_add_shift, ite_sub_shift]
  · exact decide_eq_true_iff

/-- C6, witness: a session of 60 seconds with active mouse and keyboard use
and low idle ratio is classified human. -/
theorem c6_witness :
    (predict_human_mock
      { timeOnPageSeconds := some 60, mouseMoveRate := some (3/5),
        keyPressRate := some (1/5), idleRatio := some (3/10),
        interactionScore := some (1/2) }).isHuman = true :=
  (c6_mock_heuristic _).2.1.mpr (by norm_num [mock_adjusted_score])

/-! ## C7: fail-closed error handling -/

/-- C7, counterexample. When the fallible part of predict_risk raises, the
entry point returns None — the caller receives no structured verdict at all,
contrary to the claim that both entry points return one on internal error. -/
theorem c7_counterexample :
    predict_risk (Except.error ("boom")) {} = none := rfl

/-- C7, amended. On an internal error the behaviour entry point predict_human
does return a structured verdict, and it is fail-closed — isHuman false with
probabilities human 0 and bot 1 and confidence 0 — while the risk entry point
predict_risk instead returns None, which its HTTP caller surfaces as a
failure; so neither error path ever yields a trusted or human verdict, but
only the behaviour path yields a structured one. -/
theorem c7_amended :
    (∀ (e : String) (s : BehaviorSnapshot),
      (predict_human (Except.error e) s).isHuman = false ∧
      (predict_human (Except.error e) s).confidence = 0 ∧
      (predict_human (Except.error e) s).probHuman = 0 ∧
      (predict_human (Except.error e) s).probBot = 1) ∧
    (∀ (e : String) (p : Profile), predict_risk (Except.error e) p = none) :=
  ⟨fun _ _ => ⟨rfl, rfl, rfl, rfl⟩, fun _ _ => rfl⟩

/-! ## C10: the mock probabilities are not a distribution -/

/-- C10. For the empty snapshot the heuristic classifier returns a bot verdict
whose probabilities sum to 1.1, not 1: the non-predicted class (human) is
hard-coded to 0.1 while the predicted class (bot) carries the scaled
confidence 1. -/
theorem c10_probabilities_not_distribution :
    (predict_human_mock {}).isHuman = false ∧
    (predict_human_mock {}).probHuman = 1/10 ∧
    (predict_human_mock {}).probBot = 1 ∧
    (predict_human_mock {}).probHuman + (predict_human_mock {}).probBot ≠ 1 := by
  norm_num [predict_human_mock, mock_adjusted_score, abs_of_nonneg]

/-! ## C8: batch independence and the summary counts -/

/-- Every item lands in exactly one of the two lists of the batch loop, so the
lengths of the result and error lists add up to the number of items. -/
theorem process_clinics_length (f : ClinicItem → ItemOutcome) :
    ∀ (l : List ClinicItem) (k : Nat),
      (process_clinics f k l).1.length + (process_clinics f k l).2.length =
        l.length := by
  intro l
  induction l with
  | nil => intro k; rfl
  | cons c rest ih =>
    intro k
    have h1 := ih (k + 1)
    cases h : f c <;> simp [process_clinics, h] <;> omega

/-- Every entry the batch loop emits carries an index at least the starting
index. -/
theorem process_clinics_index_ge (f : ClinicItem → ItemOutcome) :
    ∀ (l : List ClinicItem) (k : Nat),
      (∀ r ∈ (process_clinics f k l).1, k ≤ r.batch_index) ∧
      (∀ e ∈ (process_clinics f k l).2, k ≤ e.batch_index) := by
  intro l
  induction l with
  | nil => intro k; simp [process_clinics]
  | cons c rest ih =>
    intro k
    obtain ⟨ihr, ihe⟩ := ih (k + 1)
    cases h : f c with
    | ok r =>
      constructor
      · intro x hx
        simp only [process_clinics, h, List.mem_cons] at hx
        rcases hx with rfl | hx
        · exact Nat.le_refl k
        · exact Nat.le_of_succ_le (ihr x hx)
      · intro e he
        simp only [process_clinics, h] at he
        exact Nat.le_of_succ_le (ihe e he)
    | failed =>
      constructor
      · intro x hx
        simp only [process_clinics, h] at hx
        exact Nat.le_of_succ_le (ihr x hx)
      · intro e he
        simp only [process_clinics, h, List.mem_cons] at he
        rcases he with rfl | he
        · exact Nat.le_refl k
        · exact Nat.le_of_succ_le (ihe e he)
    | exn m =>
      constructor
      · intro x hx
        simp only [process_clinics, h] at hx
        exact Nat.le_of_succ_le (ihr x hx)
      · intro e he
        simp only [process_clinics, h, List.mem_cons] at he
        rcases he with rfl | he
        · exact Nat.le_refl k
        · exact Nat.le_of_succ_le (ihe e he)

/-- The entries of the batch loop carrying a given index are exactly the
entries generated by the item at that position — a function of that item
alone: one result entry when it succeeds, one error entry with its message and
clinic name when it fails, and nothing else. -/
theorem process_clinics_filter (f : ClinicItem → ItemOutcome) :
    ∀ (l : List ClinicItem) (k j : Nat) (hj : j < l.length),
      (process_clinics f k l).1.filter (fun r => r.batch_index == k + j) =
        expected_results_at f (l.get ⟨j, hj⟩) (k + j) ∧
      (process_clinics f k l).2.filter (fun e => e.batch_index == k + j) =
        expected_errors_at f (l.get ⟨j, hj⟩) (k + j) := by
  intro l
  induction l with
  | nil =>
    intro k j hj
    exact absurd hj (Nat.not_lt_zero j)
  | cons c rest ih =>
    intro k j hj
    cases j with
    | zero =>
      obtain ⟨hger, hgee⟩ := process_clinics_index_ge f rest (k + 1)
      cases h : f c <;>
        · simp [process_clinics, h, List.filter_cons, expected_results_at,
            expected_errors_at]
          refine ⟨fun a ha => ?_, fun a ha => ?_⟩
          · have := hger a ha
            omega
          · have := hgee a ha
            omega
    | succ j =>
      have hj' : j < rest.length := Nat.lt_of_succ_lt_succ hj
      obtain ⟨ihr, ihe⟩ := ih (k + 1) j hj'
      have hk : k + (j + 1) = (k + 1) + j := by omega
      have hget : (c :: rest).get ⟨j + 1, hj⟩ = rest.get ⟨j, hj'⟩ := rfl
      have hne : ¬ (k = k + (j + 1)) := by omega
      cases h : f c <;>
        · rw [hget, hk]
          simp only [process_clinics, h, List.filter_cons]
          simp [hne, ihr, ihe, hk]
          omega

/-- C8, amended: for every nonempty batch of at most 100 items the endpoint
accepts the request and processes items independently — the entries carrying
index j are exactly those generated from item j alone (one error entry with
that index when its prediction fails, one result entry when it succeeds),
and the summary satisfies total_processed = number of submitted items
= successful + failed. -/
theorem c8_theorem (f : ClinicItem → ItemOutcome) (clinics : List ClinicItem)
    (hne : clinics ≠ []) (hcap : clinics.length ≤ 100) :
    ∃ d : BatchData, batch_assess_risk f clinics = Except.ok d ∧
      d.summary.total_processed = clinics.length ∧
      d.summary.successful = d.results.length ∧
      d.summary.failed = d.errors.length ∧
      d.summary.total_processed = d.summary.successful + d.summary.failed ∧
      (∀ (j : Nat) (hj : j < clinics.length),
        d.results.filter (fun r => r.batch_index == j) =
          expected_results_at f (clinics.get ⟨j, hj⟩) j ∧
        d.errors.filter (fun e => e.batch_index == j) =
          expected_errors_at f (clinics.get ⟨j, hj⟩) j) := by
  have hempty : clinics.isEmpty = false := by
    cases clinics with
    | nil => exact absurd rfl hne
    | cons c rest => rfl
  refine ⟨{ results := (process_clinics f 0 clinics).1
            errors := (process_clinics f 0 clinics).2
            summary :=
              { total_processed := clinics.length
                successful := (process_clinics f 0 clinics).1.length
                failed := (process_clinics f 0 clinics).2.length } },
          ?_, rfl, rfl, rfl, ?_, ?_⟩
  · unfold batch_assess_risk
    rw [hempty]
    rw [if_neg (by simp), if_neg (by omega)]
  · exact (process_clinics_length f clinics 0).symm
  · intro j hj
    have h := process_clinics_filter f clinics 0 j hj
    simpa [Nat.zero_add] using h

/-- C8, counterexample to the claim as stated: the empty batch has at most 100
items, yet the endpoint rejects it with an error response and returns no
summary at all. -/
theorem c8_counterexample :
    batch_assess_risk demo_outcome [] = Except.error BatchApiError.noClinics ∧
    (0 : Nat) ≤ 100 := ⟨rfl, by omega⟩

/-- C8, witness: the documented three-item scenario with the second item
failing — total 3, the counts add up, and index 1 carries exactly one error
entry naming the failing clinic. -/
theorem c8_witness :
    ∃ d : BatchData, batch_assess_risk demo_outcome demo_clinics = Except.ok d ∧
      d.summary.total_processed = 3 ∧
      d.summary.total_processed = d.summary.successful + d.summary.failed ∧
      d.errors.filter (fun e => e.batch_index == 1) =
        [⟨1, "Prediction failed", "bad"⟩] := by
  obtain ⟨d, hok, ht, _, _, hsum, hidx⟩ :=
    c8_theorem demo_outcome demo_clinics (by simp [demo_clinics]) (by simp [demo_clinics])
  refine ⟨d, hok, by rw [ht]; rfl, hsum, ?_⟩
  have h := (hidx 1 (by simp [demo_clinics])).2
  rw [h]
  rfl

/-! ## C9: model selection -/

/-- C9, counterexample. The selection loop of train_model starts from
best_model None with best_score 0 and replaces the incumbent only on a
strictly greater mean CV score, so for the all-zero score assignment (weighted
F1 can be exactly 0) no candidate is ever selected, although the claim says
that for every assignment the highest-scoring candidate — RandomForest here,
by the first-declared tie-break — is selected. -/
theorem c9_counterexample :
    select_best_model (fun _ => 0) = (none, 0) ∧
    spec_best_candidate (fun _ => 0) = Candidate.RandomForest ∧
    (select_best_model (fun _ => 0)).1 ≠ some (spec_best_candidate (fun _ => 0)) := by
  have h1 : select_best_model (fun _ => 0) = ((none : Option Candidate), (0 : ℚ)) := by
    norm_num [select_best_model, candidate_order]
  have h2 : spec_best_candidate (fun _ => 0) = Candidate.RandomForest := by
    norm_num [spec_best_candidate]
  refine ⟨h1, h2, ?_⟩
  rw [h1, h2]
  simp

/-- C9, amended. The candidates are evaluated in the fixed declared order
RandomForest, GradientBoosting, LogisticRegression, and whenever the mean CV
scores are non-negative (weighted F1 always is) and the best of them is
positive, the loop selects exactly the first-declared candidate attaining the
maximum score, together with that score — stable and deterministic as claimed.
Only in the degenerate all-zero case is no candidate selected. -/
theorem c9_amended (cv : Candidate → ℚ) (hnn : ∀ c, 0 ≤ cv c)
    (hpos : 0 < cv (spec_best_candidate cv)) :
    select_best_model cv =
      (some (spec_best_candidate cv), cv (spec_best_candidate cv)) := by
  have ha := hnn Candidate.RandomForest
  have hb := hnn Candidate.GradientBoosting
  have hc := hnn Candidate.LogisticRegression
  unfold spec_best_candidate at hpos ⊢
  simp only [select_best_model, candidate_order, List.foldl]
  split_ifs at hpos ⊢ <;>
    first
      | rfl
      | (exfalso; simp_all only []; linarith)
      | (simp_all only [])

/-- C9, witness: scores 0.5, 0.75, 0.75 — the maximum is shared by
GradientBoosting and LogisticRegression and the selection returns
GradientBoosting, the first-declared of the tied pair, with its score. -/
theorem c9_amended_witness :
    select_best_model demo_cv =
      (some (spec_best_candidate demo_cv), demo_cv (spec_best_candidate demo_cv)) ∧
    spec_best_candidate demo_cv = Candidate.GradientBoosting :=
  ⟨c9_amended demo_cv (fun c => by cases c <;> norm_num [demo_cv])
      (by norm_num [spec_best_candidate, demo_cv]),
   by norm_num [spec_best_candidate, demo_cv]⟩
